import Mathlib

/-!
Verification of the wifi-billing-system entitlement core against its
natural-language specification.

The definitions below are a shallow embedding of the repository's code:

* `processPayment` embeds the Supabase edge function
  `supabase/functions/process-payment/index.ts` (the `serve` handler
  together with `processMTNPayment` / `processAirtelPayment`).
* `disconnectDevice` embeds the admin operation of the same name in
  `src/components/wifi/UserManagement.tsx` (an unconditional
  `update({ status: 'cancelled' }).eq('id', subscriptionId)`).
* `portal_getTimeRemaining` embeds `getTimeRemaining` in
  `src/pages/WifiPortal.tsx`; `admin_getTimeRemaining` embeds
  `getTimeRemaining` in `src/components/wifi/UserManagement.tsx`.

Database rows are modelled as Lean structures, tables as lists, row ids as
naturals drawn from a `nextId` counter (the database generates fresh UUID
primary keys; freshness of `nextId` over a run of the handler holds by
construction since the counter is bumped at each insert).  Timestamps are
milliseconds since the epoch as in JavaScript `Date`; all clock reads inside
one handler invocation are modelled as the single instant `now` passed to the
call.  The external mobile-money providers (MTN / Airtel) are the designated
abstraction point of the system ("Charge Gateway"), so the handler is
parametrised by a `Gateway` record; `demoGateway` instantiates it with the
two provider stubs exactly as they appear in the source (they unconditionally
succeed).  A provider call that throws (crash / timeout) is modelled by the
`GwOutcome.threw` constructor: in the source such an exception propagates to
the surrounding `try`/`catch`, which returns an error response and leaves the
already-inserted payment row untouched.
-/

/-- A row of `subscription_plans` (see the SQL migration): name, duration in
hours, price in minor currency units, active flag. -/
structure Plan where
  id : String
  name : String
  duration_hours : Nat
  price : Nat
  is_active : Bool
deriving Repr, DecidableEq

/-- A row of the `payments` table as written by the edge function: the insert
sets `user_id`, `amount`, `payment_method`, `status`, and the metadata fields
`phone_number` and `plan_id`; `payment_reference` is filled in on gateway
success. -/
structure Payment where
  id : Nat
  user_id : String
  amount : Nat
  payment_method : String
  status : String
  payment_reference : Option String
  phone_number : String
  plan_id : String
deriving Repr, DecidableEq

/-- A row of the subscriptions table as written by the edge function
(`user_subscriptions`; the admin table `device_subscriptions` has the same
shape with the principal column named `device_id`): status plus the time
window `starts_at` / `expires_at` in epoch milliseconds. -/
structure Subscription where
  id : Nat
  user_id : String
  plan_id : String
  status : String
  starts_at : Int
  expires_at : Int
deriving Repr, DecidableEq

/-- The database state visible to the embedded operations: the plan catalog
and the two tables the entitlement flow writes, plus the fresh-id counter. -/
structure DB where
  plans : List Plan
  payments : List Payment
  subscriptions : List Subscription
  nextId : Nat
deriving Repr, DecidableEq

/-- Result object returned by a provider charge function
(`{ success, reference }` in the source). -/
structure PayResult where
  success : Bool
  reference : String
deriving Repr, DecidableEq

/-- Outcome of invoking one provider charge function: it either returned a
`PayResult` or threw (crash / timeout), in which case the exception
propagates to the handler's catch block. -/
inductive GwOutcome where
  | threw
  | returned (r : PayResult)
deriving Repr, DecidableEq

/-- The Charge Gateway abstraction: one charge function per mobile-money
provider, each taking the phone number, the amount and the payment row id. -/
structure Gateway where
  mtn : String → Nat → Nat → GwOutcome
  airtel : String → Nat → Nat → GwOutcome

/-- `processMTNPayment` from the source: the provider integration is a stub
that unconditionally reports success with an `mtn_`-prefixed reference built
from the current time. -/
def processMTNPayment (phoneNumber : String) (amount : Nat) (paymentId : Nat)
    (now : Int) : PayResult :=
  let _ := phoneNumber
  let _ := amount
  let _ := paymentId
  { success := true, reference := "mtn_" ++ toString now }

/-- `processAirtelPayment` from the source: same unconditional-success stub
with an `airtel_`-prefixed reference. -/
def processAirtelPayment (phoneNumber : String) (amount : Nat) (paymentId : Nat)
    (now : Int) : PayResult :=
  let _ := phoneNumber
  let _ := amount
  let _ := paymentId
  { success := true, reference := "airtel_" ++ toString now }

/-- The gateway actually wired into the repository: the two stubs above. -/
def demoGateway (now : Int) : Gateway where
  mtn := fun phone amount pid => .returned (processMTNPayment phone amount pid now)
  airtel := fun phone amount pid => .returned (processAirtelPayment phone amount pid now)

/-- The body of the edge function returns either
`{ success: true, payment_id }` (and nothing else: no entitlement id, no
expiry) or a 400 response `{ error: message }` produced by the catch block. -/
inductive Response where
  | ok (payment_id : Nat)
  | err (message : String)
deriving Repr, DecidableEq

/-- The JSON request body `{ paymentMethod, planId, phoneNumber, amount }`. -/
structure Request where
  paymentMethod : String
  planId : String
  phoneNumber : String
  amount : Nat
deriving Repr, DecidableEq

/-- The payment row inserted by the handler before the provider dispatch:
status `pending`, client-supplied amount, metadata copied verbatim. -/
def newPayment (uid : String) (req : Request) (pid : Nat) : Payment :=
  { id := pid
    user_id := uid
    amount := req.amount
    payment_method := req.paymentMethod
    status := "pending"
    payment_reference := none
    phone_number := req.phoneNumber
    plan_id := req.planId }

/-- The `update({ status: 'completed', payment_reference }).eq('id', pid)`
call on the payments table. -/
def markCompleted (ps : List Payment) (pid : Nat) (ref : String) : List Payment :=
  ps.map fun p =>
    if p.id = pid then { p with status := "completed", payment_reference := some ref }
    else p

/-- The `update({ status: 'failed' }).eq('id', pid)` call on the payments
table. -/
def markFailed (ps : List Payment) (pid : Nat) : List Payment :=
  ps.map fun p => if p.id = pid then { p with status := "failed" } else p

/-- The `select('*').eq('id', planId).single()` plan lookup performed after
a successful charge.  Note the source applies no `is_active` filter here. -/
def findPlan (plans : List Plan) (planId : String) : Option Plan :=
  plans.find? fun pl => pl.id = planId

/-- The `switch (paymentMethod)` dispatch of the handler: `mtn` and `airtel`
call the provider functions, `visa` and `wallet` share an inline
demo-success branch, and any other method hits the `default` case that
throws `Unsupported payment method` (modelled as `none`). -/
def gatewayDispatch (gw : Gateway) (method phone : String) (amount : Nat)
    (pid : Nat) (now : Int) : Option GwOutcome :=
  if method = "mtn" then some (gw.mtn phone amount pid)
  else if method = "airtel" then some (gw.airtel phone amount pid)
  else if method = "visa" then
    some (.returned { success := true, reference := "demo_" ++ toString now })
  else if method = "wallet" then
    some (.returned { success := true, reference := "demo_" ++ toString now })
  else none

/-- The subscription row inserted on gateway success when the plan lookup
succeeds: status `active`, `starts_at = now`,
`expires_at = now + duration_hours * 60 * 60 * 1000`. -/
def newSubscription (uid : String) (planId : String) (plan : Plan) (now : Int)
    (sid : Nat) : Subscription :=
  { id := sid
    user_id := uid
    plan_id := planId
    status := "active"
    starts_at := now
    expires_at := now + (plan.duration_hours : Int) * (60 * 60 * 1000) }

/-- Everything the handler does after the payment row is inserted: branch on
the dispatch outcome exactly as the source does.  `outcome = none` is the
`default:` throw, `some .threw` a provider exception; both land in the catch
block with the pending payment row already committed. -/
def finishPayment (uid : String) (req : Request) (now : Int) (pid : Nat)
    (outcome : Option GwOutcome) (db1 : DB) : Response × DB :=
  match outcome with
  | none => (.err "Unsupported payment method", db1)
  | some .threw => (.err "Payment processing error", db1)
  | some (.returned r) =>
    if r.success then
      let db2 : DB := { db1 with payments := markCompleted db1.payments pid r.reference }
      match findPlan db2.plans req.planId with
      | some plan =>
        let sub := newSubscription uid req.planId plan now db2.nextId
        (.ok pid,
          { db2 with
              subscriptions := db2.subscriptions ++ [sub]
              nextId := db2.nextId + 1 })
      | none => (.ok pid, db2)
    else
      (.err "Payment failed", { db1 with payments := markFailed db1.payments pid })

/-- The `serve` handler of `process-payment/index.ts`: authenticate, insert
the payment row in `pending`, dispatch to the gateway, then finish as the
source does.  `user?` is the result of `supabase.auth.getUser()`; an absent
user throws `Unauthorized` before any write. -/
def processPayment (gw : Gateway) (user? : Option String) (now : Int)
    (req : Request) (db : DB) : Response × DB :=
  match user? with
  | none => (.err "Unauthorized", db)
  | some uid =>
    let pid := db.nextId
    let db1 : DB :=
      { db with payments := db.payments ++ [newPayment uid req pid], nextId := db.nextId + 1 }
    finishPayment uid req now pid
      (gatewayDispatch gw req.paymentMethod req.phoneNumber req.amount pid now) db1

/-- The handler as wired in the repository, with the stub providers. -/
def processPaymentImpl (user? : Option String) (now : Int) (req : Request)
    (db : DB) : Response × DB :=
  processPayment (demoGateway now) user? now req db

/-- `disconnectDevice` from `UserManagement.tsx`: an unconditional
`update({ status: 'cancelled' }).eq('id', subscriptionId)` on the
subscriptions table — no status precondition, no other effect. -/
def disconnectDevice (subscriptionId : Nat) (subs : List Subscription) :
    List Subscription :=
  subs.map fun s =>
    if s.id = subscriptionId then { s with status := "cancelled" } else s

/-- The active-with-future-expiry check the admin UI uses to decide that a
device is currently connected
(`subscription.status === 'active' && new Date(subscription.expires_at) > new Date()`). -/
def isConnected (subs : List Subscription) (uid : String) (now : Int) : Bool :=
  subs.any fun s => s.user_id = uid && s.status = "active" && now < s.expires_at

/-- Subscriptions of a device that are `active` with expiry in the future:
the rows the spec calls "the current grant" candidates. -/
def activeFuture (subs : List Subscription) (uid : String) (now : Int) :
    List Subscription :=
  subs.filter fun s => s.user_id = uid && s.status = "active" && now < s.expires_at

/-- Concrete plan fixture: the repository's seeded Daily Plan. -/
def plan1 : Plan :=
  { id := "p1", name := "Daily Plan", duration_hours := 24, price := 1000, is_active := true }

/-- Concrete initial database: one plan, no payments, no subscriptions. -/
def db0 : DB := { plans := [plan1], payments := [], subscriptions := [], nextId := 0 }

/-- A well-formed purchase request against `plan1` (matching amount). -/
def reqOK : Request :=
  { paymentMethod := "wallet", planId := "p1", phoneNumber := "", amount := 1000 }

/-- A purchase request whose amount (999) differs from `plan1`'s price (1000). -/
def req999 : Request :=
  { paymentMethod := "wallet", planId := "p1", phoneNumber := "", amount := 999 }

/-- A mobile-money purchase request naming a plan id absent from the catalog. -/
def reqNoPlan : Request :=
  { paymentMethod := "mtn", planId := "nope", phoneNumber := "0700000000", amount := 1000 }

/-- A wallet purchase request naming a plan id absent from the catalog. -/
def reqNoPlanWallet : Request :=
  { paymentMethod := "wallet", planId := "ghost", phoneNumber := "", amount := 500 }

/-- The operations that touch the subscriptions table after a grant exists:
further purchases, the admin disconnect, and catalog edits (plan CRUD is
external to the core but may replace the catalog). -/
inductive Op where
  | purchase (gw : Gateway) (user? : Option String) (now : Int) (req : Request)
  | disconnect (subscriptionId : Nat)
  | setPlans (plans : List Plan)

/-- Apply one operation to the database. -/
def applyOp (db : DB) : Op → DB
  | .purchase gw user? now req => (processPayment gw user? now req db).2
  | .disconnect sid => { db with subscriptions := disconnectDevice sid db.subscriptions }
  | .setPlans ps => { db with plans := ps }

/-- Apply a sequence of operations to the database. -/
def applyOps (db : DB) : List Op → DB
  | [] => db
  | op :: ops => applyOps (applyOp db op) ops

/-! ### Shape lemmas about the handler, shared by several claims -/

/-- `finishPayment` never changes the number of payment rows: both status
updates are row-wise maps. -/
theorem finishPayment_payments_length (uid : String) (req : Request) (now : Int)
    (pid : Nat) (outcome : Option GwOutcome) (db1 : DB) :
    ((finishPayment uid req now pid outcome db1).2).payments.length
      = db1.payments.length := by
  rcases outcome with _ | o
  · rfl
  · rcases o with _ | r
    · rfl
    · by_cases hs : r.success
      · simp only [finishPayment, hs, if_true]
        rcases hp : findPlan db1.plans req.planId with _ | plan <;>
          simp [markCompleted, hp]
      · simp [finishPayment, hs, markFailed]

/-- `finishPayment` either leaves the subscriptions table unchanged or, when
the gateway returned success and the plan lookup succeeded, appends exactly
the one new active row. -/
theorem finishPayment_subscriptions_shape (uid : String) (req : Request)
    (now : Int) (pid : Nat) (outcome : Option GwOutcome) (db1 : DB) :
    ((finishPayment uid req now pid outcome db1).2).subscriptions
        = db1.subscriptions ∨
      ∃ r plan, outcome = some (.returned r) ∧ r.success = true ∧
        findPlan db1.plans req.planId = some plan ∧
        ((finishPayment uid req now pid outcome db1).2).subscriptions
          = db1.subscriptions ++ [newSubscription uid req.planId plan now db1.nextId] := by
  rcases outcome with _ | o
  · exact Or.inl rfl
  · rcases o with _ | r
    · exact Or.inl rfl
    · by_cases hs : r.success
      · rcases hp : findPlan db1.plans req.planId with _ | plan
        · exact Or.inl (by simp [finishPayment, hs, hp])
        · exact Or.inr ⟨r, plan, rfl, hs, rfl, by simp [finishPayment, hs, hp]⟩
      · exact Or.inl (by simp [finishPayment, hs])

/-- The handler's subscriptions table after a call: unchanged, or the old
table with one fresh `active` row appended (plan resolved from the catalog at
call time, id `db.nextId + 1`). -/
theorem processPayment_subscriptions_shape (gw : Gateway) (user? : Option String)
    (now : Int) (req : Request) (db : DB) :
    (processPayment gw user? now req db).2.subscriptions = db.subscriptions ∨
      ∃ plan, findPlan db.plans req.planId = some plan ∧
        (processPayment gw user? now req db).2.subscriptions
          = db.subscriptions ++ [newSubscription (user?.getD "") req.planId plan now (db.nextId + 1)] := by
  rcases user? with _ | uid
  · exact Or.inl rfl
  · have h := finishPayment_subscriptions_shape uid req now db.nextId
      (gatewayDispatch gw req.paymentMethod req.phoneNumber req.amount db.nextId now)
      { db with payments := db.payments ++ [newPayment uid req db.nextId], nextId := db.nextId + 1 }
    rcases h with h | ⟨r, plan, _, _, hp, h⟩
    · exact Or.inl h
    · exact Or.inr ⟨plan, hp, h⟩

/-- Unfolding the handler on a `wallet` request: the inline demo-success
branch fires after the pending payment row is inserted. -/
theorem processPayment_wallet (gw : Gateway) (u : String) (now : Int)
    (req : Request) (db : DB) (hm : req.paymentMethod = "wallet") :
    processPayment gw (some u) now req db
      = finishPayment u req now db.nextId
          (some (.returned { success := true, reference := "demo_" ++ toString now }))
          { db with payments := db.payments ++ [newPayment u req db.nextId]
                    nextId := db.nextId + 1 } := by
  simp [processPayment, gatewayDispatch, hm]

/-- Unfolding the handler on an `mtn` request: the provider charge function
is consulted after the pending payment row is inserted. -/
theorem processPayment_mtn (gw : Gateway) (u : String) (now : Int)
    (req : Request) (db : DB) (hm : req.paymentMethod = "mtn") :
    processPayment gw (some u) now req db
      = finishPayment u req now db.nextId
          (some (gw.mtn req.phoneNumber req.amount db.nextId))
          { db with payments := db.payments ++ [newPayment u req db.nextId]
                    nextId := db.nextId + 1 } := by
  simp [processPayment, gatewayDispatch, hm]

/-- Unfolding the handler on an unsupported method: the `default:` throw is
reached only after the pending payment row is inserted, so the row stays. -/
theorem processPayment_unsupported (gw : Gateway) (u : String) (now : Int)
    (req : Request) (db : DB)
    (h1 : req.paymentMethod ≠ "mtn") (h2 : req.paymentMethod ≠ "airtel")
    (h3 : req.paymentMethod ≠ "visa") (h4 : req.paymentMethod ≠ "wallet") :
    processPayment gw (some u) now req db
      = (.err "Unsupported payment method",
         { db with payments := db.payments ++ [newPayment u req db.nextId]
                   nextId := db.nextId + 1 }) := by
  simp [processPayment, gatewayDispatch, h1, h2, h3, h4, finishPayment]

/-- `finishPayment` on a successful charge with a resolvable plan: mark the
payment completed and append the new active subscription. -/
theorem finishPayment_success_plan (uid : String) (req : Request) (now : Int)
    (pid : Nat) (r : PayResult) (db1 : DB) (plan : Plan)
    (hs : r.success = true) (hp : findPlan db1.plans req.planId = some plan) :
    finishPayment uid req now pid (some (.returned r)) db1
      = (.ok pid,
         { db1 with
             payments := markCompleted db1.payments pid r.reference
             subscriptions := db1.subscriptions ++ [newSubscription uid req.planId plan now db1.nextId]
             nextId := db1.nextId + 1 }) := by
  simp [finishPayment, hs, hp]

/-- `finishPayment` on a successful charge whose plan lookup fails: the
payment is marked completed, no subscription is written, and the response is
still a success. -/
theorem finishPayment_success_noplan (uid : String) (req : Request) (now : Int)
    (pid : Nat) (r : PayResult) (db1 : DB)
    (hs : r.success = true) (hp : findPlan db1.plans req.planId = none) :
    finishPayment uid req now pid (some (.returned r)) db1
      = (.ok pid, { db1 with payments := markCompleted db1.payments pid r.reference }) := by
  simp [finishPayment, hs, hp]

/-- `finishPayment` on a declined charge: mark the payment failed, return the
failure response, touch nothing else. -/
theorem finishPayment_failure (uid : String) (req : Request) (now : Int)
    (pid : Nat) (r : PayResult) (db1 : DB) (hs : r.success = false) :
    finishPayment uid req now pid (some (.returned r)) db1
      = (.err "Payment failed", { db1 with payments := markFailed db1.payments pid }) := by
  simp [finishPayment, hs]

/-- The completion update only rewrites status and reference: the recorded
amounts are untouched. -/
theorem markCompleted_map_amount (ps : List Payment) (pid : Nat) (ref : String) :
    (markCompleted ps pid ref).map Payment.amount = ps.map Payment.amount := by
  simp only [markCompleted, List.map_map]
  refine List.map_congr_left fun p _ => ?_
  by_cases h : p.id = pid <;> simp [h]

/-! ### Claim C1 -/

/-- Claim C1 is false on the code: the handler never compares the submitted
amount to the plan price.  At the concrete input `req999` (amount 999 against
the 1000-price plan `p1`) the purchase is not rejected: a payment row is
created (and completed), an entitlement row is created, and the call reports
success. -/
theorem C1_counterexample :
    (processPaymentImpl (some "d1") 0 req999 db0).1 = Response.ok 0 ∧
    (processPaymentImpl (some "d1") 0 req999 db0).2.payments.length = 1 ∧
    ((processPaymentImpl (some "d1") 0 req999 db0).2.payments.map Payment.status)
      = ["completed"] ∧
    (processPaymentImpl (some "d1") 0 req999 db0).2.subscriptions.length = 1 ∧
    (findPlan db0.plans req999.planId).map Plan.price = some 1000 ∧
    req999.amount = 999 ∧
    ¬ ((processPaymentImpl (some "d1") 0 req999 db0).2.payments = db0.payments) := by
  decide

/-- Claim C1 amended: the handler performs no amount validation at all.  For
any authorised wallet purchase whose submitted amount differs from the
resolved plan's price, the call proceeds exactly as for a matching amount: a
payment row recording the client-submitted amount is appended and completed,
an active entitlement row is appended, and the call returns success. -/
theorem C1_amended (gw : Gateway) (u : String) (now : Int) (req : Request)
    (db : DB) (plan : Plan)
    (hm : req.paymentMethod = "wallet")
    (hp : findPlan db.plans req.planId = some plan)
    (_hne : req.amount ≠ plan.price) :
    (processPayment gw (some u) now req db).1 = Response.ok db.nextId ∧
    (processPayment gw (some u) now req db).2.payments
      = markCompleted (db.payments ++ [newPayment u req db.nextId]) db.nextId
          ("demo_" ++ toString now) ∧
    ((processPayment gw (some u) now req db).2.payments.map Payment.amount)
      = (db.payments.map Payment.amount) ++ [req.amount] ∧
    (processPayment gw (some u) now req db).2.subscriptions
      = db.subscriptions ++ [newSubscription u req.planId plan now (db.nextId + 1)] := by
  rw [processPayment_wallet gw u now req db hm,
    finishPayment_success_plan u req now db.nextId
      { success := true, reference := "demo_" ++ toString now }
      { db with payments := db.payments ++ [newPayment u req db.nextId]
                nextId := db.nextId + 1 }
      plan rfl hp]
  refine ⟨rfl, rfl, ?_, rfl⟩
  simp [markCompleted_map_amount, newPayment]

/-- Witness for `C1_amended` at the concrete mismatched request `req999`. -/
theorem C1_amended_witness :
    (processPayment (demoGateway 0) (some "d1") 0 req999 db0).1 = Response.ok db0.nextId ∧
    (processPayment (demoGateway 0) (some "d1") 0 req999 db0).2.payments
      = markCompleted (db0.payments ++ [newPayment "d1" req999 db0.nextId]) db0.nextId
          ("demo_" ++ toString (0 : Int)) ∧
    ((processPayment (demoGateway 0) (some "d1") 0 req999 db0).2.payments.map Payment.amount)
      = (db0.payments.map Payment.amount) ++ [req999.amount] ∧
    (processPayment (demoGateway 0) (some "d1") 0 req999 db0).2.subscriptions
      = db0.subscriptions ++ [newSubscription "d1" req999.planId plan1 0 (db0.nextId + 1)] :=
  C1_amended (demoGateway 0) "d1" 0 req999 db0 plan1 rfl (by decide) (by decide)

/-! ### Claim C2 -/

/-- Claim C2 is false on the code: the plan is not resolved first and an
absent plan does not stop the flow.  At the concrete input `reqNoPlan`
(plan id absent from the catalog, method `mtn`) the payment row is created
and completed, the provider is invoked (its `mtn_0` reference is recorded on
the row), and the call returns success. -/
theorem C2_counterexample :
    findPlan db0.plans reqNoPlan.planId = none ∧
    (processPaymentImpl (some "d1") 0 reqNoPlan db0).1 = Response.ok 0 ∧
    (processPaymentImpl (some "d1") 0 reqNoPlan db0).2.payments.length = 1 ∧
    ((processPaymentImpl (some "d1") 0 reqNoPlan db0).2.payments.map Payment.status)
      = ["completed"] ∧
    ((processPaymentImpl (some "d1") 0 reqNoPlan db0).2.payments.map Payment.payment_reference)
      = [some "mtn_0"] := by
  decide

/-- Claim C2 amended: the plan is resolved only after a successful charge,
so an absent plan does not prevent the payment row, the gateway call, or the
success response; and an unsupported method throws only after the payment
row has been inserted, leaving that row behind in `pending`. -/
theorem C2_amended (gw : Gateway) (u : String) (now : Int) (req : Request) (db : DB) :
    (findPlan db.plans req.planId = none → req.paymentMethod = "mtn" →
      ∀ r : PayResult,
        gw.mtn req.phoneNumber req.amount db.nextId = .returned r → r.success = true →
        (processPayment gw (some u) now req db).1 = Response.ok db.nextId ∧
        (processPayment gw (some u) now req db).2.payments
          = markCompleted (db.payments ++ [newPayment u req db.nextId]) db.nextId r.reference ∧
        (processPayment gw (some u) now req db).2.subscriptions = db.subscriptions) ∧
    (req.paymentMethod ≠ "mtn" → req.paymentMethod ≠ "airtel" →
      req.paymentMethod ≠ "visa" → req.paymentMethod ≠ "wallet" →
      (processPayment gw (some u) now req db).1 = Response.err "Unsupported payment method" ∧
      (processPayment gw (some u) now req db).2.payments
        = db.payments ++ [newPayment u req db.nextId] ∧
      (newPayment u req db.nextId).status = "pending" ∧
      (processPayment gw (some u) now req db).2.subscriptions = db.subscriptions) := by
  constructor
  · intro hp hm r hr hs
    rw [processPayment_mtn gw u now req db hm, hr,
      finishPayment_success_noplan u req now db.nextId r
        { db with payments := db.payments ++ [newPayment u req db.nextId]
                  nextId := db.nextId + 1 }
        hs hp]
    exact ⟨rfl, rfl, rfl⟩
  · intro h1 h2 h3 h4
    rw [processPayment_unsupported gw u now req db h1 h2 h3 h4]
    exact ⟨rfl, rfl, rfl, rfl⟩

/-- Witness for `C2_amended` at the concrete absent-plan request `reqNoPlan`. -/
theorem C2_amended_witness :
    (findPlan db0.plans reqNoPlan.planId = none → reqNoPlan.paymentMethod = "mtn" →
      ∀ r : PayResult,
        (demoGateway 0).mtn reqNoPlan.phoneNumber reqNoPlan.amount db0.nextId = .returned r →
        r.success = true →
        (processPayment (demoGateway 0) (some "d1") 0 reqNoPlan db0).1 = Response.ok db0.nextId ∧
        (processPayment (demoGateway 0) (some "d1") 0 reqNoPlan db0).2.payments
          = markCompleted (db0.payments ++ [newPayment "d1" reqNoPlan db0.nextId]) db0.nextId
              r.reference ∧
        (processPayment (demoGateway 0) (some "d1") 0 reqNoPlan db0).2.subscriptions
          = db0.subscriptions) ∧
    (reqNoPlan.paymentMethod ≠ "mtn" → reqNoPlan.paymentMethod ≠ "airtel" →
      reqNoPlan.paymentMethod ≠ "visa" → reqNoPlan.paymentMethod ≠ "wallet" →
      (processPayment (demoGateway 0) (some "d1") 0 reqNoPlan db0).1
        = Response.err "Unsupported payment method" ∧
      (processPayment (demoGateway 0) (some "d1") 0 reqNoPlan db0).2.payments
        = db0.payments ++ [newPayment "d1" reqNoPlan db0.nextId] ∧
      (newPayment "d1" reqNoPlan db0.nextId).status = "pending" ∧
      (processPayment (demoGateway 0) (some "d1") 0 reqNoPlan db0).2.subscriptions
        = db0.subscriptions) :=
  C2_amended (demoGateway 0) "d1" 0 reqNoPlan db0

/-! ### Claim C3 -/

/-- Claim C3 is false on the code: at the concrete input `reqNoPlanWallet`
the charge succeeds, the plan cannot be resolved at grant time, no
entitlement row is written — and the call still reports success (no
distinguishable error), carrying only the payment id. -/
theorem C3_counterexample :
    findPlan db0.plans reqNoPlanWallet.planId = none ∧
    (processPaymentImpl (some "d1") 0 reqNoPlanWallet db0).1 = Response.ok 0 ∧
    ((processPaymentImpl (some "d1") 0 reqNoPlanWallet db0).2.payments.map Payment.status)
      = ["completed"] ∧
    (processPaymentImpl (some "d1") 0 reqNoPlanWallet db0).2.subscriptions = [] := by
  decide

/-- Claim C3 amended: when the charge succeeds but the plan cannot be
resolved at grant time, the payment is still marked completed and the call
returns the plain success response; no entitlement row is created and no
error is surfaced.  A success response carries only the payment id (the
`Response.ok` payload), never an entitlement id or expiry. -/
theorem C3_amended (gw : Gateway) (u : String) (now : Int) (req : Request)
    (db : DB)
    (hm : req.paymentMethod = "wallet")
    (hp : findPlan db.plans req.planId = none) :
    (processPayment gw (some u) now req db).1 = Response.ok db.nextId ∧
    (processPayment gw (some u) now req db).2.subscriptions = db.subscriptions ∧
    (processPayment gw (some u) now req db).2.payments
      = markCompleted (db.payments ++ [newPayment u req db.nextId]) db.nextId
          ("demo_" ++ toString now) := by
  rw [processPayment_wallet gw u now req db hm,
    finishPayment_success_noplan u req now db.nextId
      { success := true, reference := "demo_" ++ toString now }
      { db with payments := db.payments ++ [newPayment u req db.nextId]
                nextId := db.nextId + 1 }
      rfl hp]
  exact ⟨rfl, rfl, rfl⟩

/-- Witness for `C3_amended` at the concrete request `reqNoPlanWallet`. -/
theorem C3_amended_witness :
    (processPayment (demoGateway 0) (some "d1") 0 reqNoPlanWallet db0).1
      = Response.ok db0.nextId ∧
    (processPayment (demoGateway 0) (some "d1") 0 reqNoPlanWallet db0).2.subscriptions
      = db0.subscriptions ∧
    (processPayment (demoGateway 0) (some "d1") 0 reqNoPlanWallet db0).2.payments
      = markCompleted (db0.payments ++ [newPayment "d1" reqNoPlanWallet db0.nextId]) db0.nextId
          ("demo_" ++ toString (0 : Int)) :=
  C3_amended (demoGateway 0) "d1" 0 reqNoPlanWallet db0 rfl (by decide)

/-! ### Claim C4 -/

/-- Claim C4 is false on the code: nothing extends or replaces an existing
grant, so two successful purchases for the same device leave two
simultaneously `active` rows with future expiry. -/
theorem C4_counterexample :
    (activeFuture
      (processPaymentImpl (some "d1") 0 reqOK
        (processPaymentImpl (some "d1") 0 reqOK db0).2).2.subscriptions
      "d1" 0).length = 2 ∧
    ¬ ((activeFuture
      (processPaymentImpl (some "d1") 0 reqOK
        (processPaymentImpl (some "d1") 0 reqOK db0).2).2.subscriptions
      "d1" 0).length ≤ 1) := by
  decide

/-- Claim C4 amended: a purchase never extends, replaces or otherwise
mutates an existing entitlement row; it leaves the subscriptions table
unchanged or appends exactly one fresh `active` row for the plan resolved at
call time.  The at-most-one-active-grant invariant is therefore not
maintained. -/
theorem C4_amended (gw : Gateway) (u : String) (now : Int) (req : Request)
    (db : DB) :
    (processPayment gw (some u) now req db).2.subscriptions = db.subscriptions ∨
      ∃ plan, findPlan db.plans req.planId = some plan ∧
        (processPayment gw (some u) now req db).2.subscriptions
          = db.subscriptions ++ [newSubscription u req.planId plan now (db.nextId + 1)] ∧
        (newSubscription u req.planId plan now (db.nextId + 1)).status = "active" := by
  rcases processPayment_subscriptions_shape gw (some u) now req db with h | ⟨plan, hp, h⟩
  · exact Or.inl h
  · exact Or.inr ⟨plan, hp, h, rfl⟩

/-! ### Claim C5 -/

/-- The failure update distributes over the appended fresh row. -/
theorem markFailed_concat (l : List Payment) (p : Payment) :
    markFailed (l ++ [p]) p.id
      = markFailed l p.id ++ [{ p with status := "failed" }] := by
  simp [markFailed]

/-- A gateway whose provider charge functions decline every charge: the
"gateway mock configured to fail" of the spec's test scenario. -/
def failGateway : Gateway where
  mtn := fun phone amount pid =>
    let _ := phone
    let _ := amount
    let _ := pid
    .returned { success := false, reference := "" }
  airtel := fun phone amount pid =>
    let _ := phone
    let _ := amount
    let _ := pid
    .returned { success := false, reference := "" }

/-- A mobile-money request against the seeded plan, used as the C5 witness
input. -/
def reqMTN : Request :=
  { paymentMethod := "mtn", planId := "p1", phoneNumber := "0700000000", amount := 1000 }

/-- Claim C5: when the provider declines the charge, the payment attempt (the
row this call appended) ends in status `failed`, the call returns the failure
response, the subscriptions table is untouched, and hence every device's
connected status is exactly what it was before the call. -/
theorem C5_gateway_failure (gw : Gateway) (u : String) (now : Int)
    (req : Request) (db : DB) (r : PayResult)
    (hm : req.paymentMethod = "mtn")
    (hr : gw.mtn req.phoneNumber req.amount db.nextId = .returned r)
    (hs : r.success = false) :
    (processPayment gw (some u) now req db).1 = Response.err "Payment failed" ∧
    (processPayment gw (some u) now req db).2.payments
      = markFailed (db.payments ++ [newPayment u req db.nextId]) db.nextId ∧
    (processPayment gw (some u) now req db).2.payments.getLast?
      = some { newPayment u req db.nextId with status := "failed" } ∧
    (processPayment gw (some u) now req db).2.payments.length
      = db.payments.length + 1 ∧
    (processPayment gw (some u) now req db).2.subscriptions = db.subscriptions ∧
    ∀ v : String, ∀ t : Int,
      isConnected (processPayment gw (some u) now req db).2.subscriptions v t
        = isConnected db.subscriptions v t := by
  rw [processPayment_mtn gw u now req db hm, hr,
    finishPayment_failure u req now db.nextId r
      { db with payments := db.payments ++ [newPayment u req db.nextId]
                nextId := db.nextId + 1 }
      hs]
  refine ⟨rfl, rfl, ?_, ?_, rfl, fun v t => rfl⟩
  · simp [markFailed, newPayment, List.getLast?_concat]
  · simp [markFailed]

/-- Witness for `C5_gateway_failure`: the failing gateway mock at a concrete
request. -/
theorem C5_gateway_failure_witness :
    (processPayment failGateway (some "d1") 0 reqMTN db0).1
      = Response.err "Payment failed" ∧
    (processPayment failGateway (some "d1") 0 reqMTN db0).2.payments
      = markFailed (db0.payments ++ [newPayment "d1" reqMTN db0.nextId]) db0.nextId ∧
    (processPayment failGateway (some "d1") 0 reqMTN db0).2.payments.getLast?
      = some { newPayment "d1" reqMTN db0.nextId with status := "failed" } ∧
    (processPayment failGateway (some "d1") 0 reqMTN db0).2.payments.length
      = db0.payments.length + 1 ∧
    (processPayment failGateway (some "d1") 0 reqMTN db0).2.subscriptions
      = db0.subscriptions ∧
    ∀ v : String, ∀ t : Int,
      isConnected (processPayment failGateway (some "d1") 0 reqMTN db0).2.subscriptions v t
        = isConnected db0.subscriptions v t :=
  C5_gateway_failure failGateway "d1" 0 reqMTN db0
    { success := false, reference := "" } rfl rfl rfl

/-! ### Claim C6 -/

/-- Claim C6: every authorised call appends exactly one payment row; that row
is inserted in status `pending` before the gateway dispatch (the call
literally runs `finishPayment` on a state already containing the pending
row), so it survives even when the dispatch throws or the method is
unsupported; and at most one subscription row is appended, only when the
gateway returned success (and the plan resolved). -/
theorem C6_payment_accounting (gw : Gateway) (u : String) (now : Int)
    (req : Request) (db : DB) :
    (processPayment gw (some u) now req db).2.payments.length
      = db.payments.length + 1 ∧
    processPayment gw (some u) now req db
      = finishPayment u req now db.nextId
          (gatewayDispatch gw req.paymentMethod req.phoneNumber req.amount db.nextId now)
          { db with payments := db.payments ++ [newPayment u req db.nextId]
                    nextId := db.nextId + 1 } ∧
    (newPayment u req db.nextId).status = "pending" ∧
    ((gatewayDispatch gw req.paymentMethod req.phoneNumber req.amount db.nextId now = none ∨
      gatewayDispatch gw req.paymentMethod req.phoneNumber req.amount db.nextId now
        = some .threw) →
      (processPayment gw (some u) now req db).2.payments
        = db.payments ++ [newPayment u req db.nextId]) ∧
    ((processPayment gw (some u) now req db).2.subscriptions = db.subscriptions ∨
      ∃ r plan,
        gatewayDispatch gw req.paymentMethod req.phoneNumber req.amount db.nextId now
          = some (.returned r) ∧ r.success = true ∧
        findPlan db.plans req.planId = some plan ∧
        (processPayment gw (some u) now req db).2.subscriptions
          = db.subscriptions ++ [newSubscription u req.planId plan now (db.nextId + 1)]) := by
  have hrfl : processPayment gw (some u) now req db
      = finishPayment u req now db.nextId
          (gatewayDispatch gw req.paymentMethod req.phoneNumber req.amount db.nextId now)
          { db with payments := db.payments ++ [newPayment u req db.nextId]
                    nextId := db.nextId + 1 } := rfl
  refine ⟨?_, hrfl, rfl, ?_, ?_⟩
  · have h := finishPayment_payments_length u req now db.nextId
      (gatewayDispatch gw req.paymentMethod req.phoneNumber req.amount db.nextId now)
      { db with payments := db.payments ++ [newPayment u req db.nextId]
                nextId := db.nextId + 1 }
    rw [hrfl, h]
    simp
  · intro hcase
    rcases hcase with h | h <;> rw [hrfl, h] <;> rfl
  · have h := finishPayment_subscriptions_shape u req now db.nextId
      (gatewayDispatch gw req.paymentMethod req.phoneNumber req.amount db.nextId now)
      { db with payments := db.payments ++ [newPayment u req db.nextId]
                nextId := db.nextId + 1 }
    rcases h with h | ⟨r, plan, ho, hsucc, hp, h⟩
    · exact Or.inl (by rw [hrfl]; exact h)
    · exact Or.inr ⟨r, plan, ho, hsucc, hp, by rw [hrfl]; exact h⟩

/-- Witness for `C6_payment_accounting` at a concrete call. -/
theorem C6_payment_accounting_witness :
    (processPayment (demoGateway 0) (some "d1") 0 reqOK db0).2.payments.length
      = db0.payments.length + 1 ∧
    processPayment (demoGateway 0) (some "d1") 0 reqOK db0
      = finishPayment "d1" reqOK 0 db0.nextId
          (gatewayDispatch (demoGateway 0) reqOK.paymentMethod reqOK.phoneNumber
            reqOK.amount db0.nextId 0)
          { db0 with payments := db0.payments ++ [newPayment "d1" reqOK db0.nextId]
                     nextId := db0.nextId + 1 } ∧
    (newPayment "d1" reqOK db0.nextId).status = "pending" ∧
    ((gatewayDispatch (demoGateway 0) reqOK.paymentMethod reqOK.phoneNumber
        reqOK.amount db0.nextId 0 = none ∨
      gatewayDispatch (demoGateway 0) reqOK.paymentMethod reqOK.phoneNumber
        reqOK.amount db0.nextId 0 = some .threw) →
      (processPayment (demoGateway 0) (some "d1") 0 reqOK db0).2.payments
        = db0.payments ++ [newPayment "d1" reqOK db0.nextId]) ∧
    ((processPayment (demoGateway 0) (some "d1") 0 reqOK db0).2.subscriptions
        = db0.subscriptions ∨
      ∃ r plan,
        gatewayDispatch (demoGateway 0) reqOK.paymentMethod reqOK.phoneNumber
          reqOK.amount db0.nextId 0 = some (.returned r) ∧ r.success = true ∧
        findPlan db0.plans reqOK.planId = some plan ∧
        (processPayment (demoGateway 0) (some "d1") 0 reqOK db0).2.subscriptions
          = db0.subscriptions ++ [newSubscription "d1" reqOK.planId plan 0 (db0.nextId + 1)]) :=
  C6_payment_accounting (demoGateway 0) "d1" 0 reqOK db0

/-! ### Claim C7 -/

/-- One operation never rewrites the time window of an existing subscription
row: a purchase only appends, the disconnect only rewrites `status`, and a
catalog edit touches no subscription. -/
theorem applyOp_preserves_window (db : DB) (op : Op) (s : Subscription)
    (hs : s ∈ db.subscriptions) :
    ∃ s' ∈ (applyOp db op).subscriptions,
      s'.id = s.id ∧ s'.plan_id = s.plan_id ∧ s'.starts_at = s.starts_at ∧
      s'.expires_at = s.expires_at := by
  cases op with
  | purchase gw user? now req =>
    rcases processPayment_subscriptions_shape gw user? now req db with h | ⟨plan, _, h⟩
    · exact ⟨s, by simpa [applyOp, h] using hs, rfl, rfl, rfl, rfl⟩
    · refine ⟨s, ?_, rfl, rfl, rfl, rfl⟩
      have : (applyOp db (.purchase gw user? now req)).subscriptions
          = db.subscriptions
            ++ [newSubscription (user?.getD "") req.planId plan now (db.nextId + 1)] := h
      rw [this]
      exact List.mem_append_left _ hs
  | disconnect sid =>
    refine ⟨if s.id = sid then { s with status := "cancelled" } else s, ?_, ?_, ?_, ?_, ?_⟩
    · have : (applyOp db (.disconnect sid)).subscriptions
          = disconnectDevice sid db.subscriptions := rfl
      rw [this]
      exact List.mem_map.mpr ⟨s, hs, rfl⟩
    · by_cases h : s.id = sid <;> simp [h]
    · by_cases h : s.id = sid <;> simp [h]
    · by_cases h : s.id = sid <;> simp [h]
    · by_cases h : s.id = sid <;> simp [h]
  | setPlans ps =>
    exact ⟨s, hs, rfl, rfl, rfl, rfl⟩

/-- Over any sequence of further operations, every existing subscription row
survives with its id, plan and time window intact (only `status` may
change). -/
theorem applyOps_preserves_window (ops : List Op) (db : DB) (s : Subscription)
    (hs : s ∈ db.subscriptions) :
    ∃ s' ∈ (applyOps db ops).subscriptions,
      s'.id = s.id ∧ s'.plan_id = s.plan_id ∧ s'.starts_at = s.starts_at ∧
      s'.expires_at = s.expires_at := by
  induction ops generalizing db s with
  | nil => exact ⟨s, hs, rfl, rfl, rfl, rfl⟩
  | cons op ops ih =>
    rcases applyOp_preserves_window db op s hs with ⟨t, ht, h1, h2, h3, h4⟩
    rcases ih (applyOp db op) t ht with ⟨s', hs', g1, g2, g3, g4⟩
    exact ⟨s', hs', g1.trans h1, g2.trans h2, g3.trans h3, g4.trans h4⟩

/-- Claim C7: the entitlement row created by a successful purchase has
`starts_at = now` and `expires_at = now + duration_hours * 60 * 60 * 1000`
for the plan resolved from the catalog at grant time, and this window is
computed once: no later purchase, disconnect or catalog edit ever changes
it. -/
theorem C7_expires_at (gw : Gateway) (u : String) (now : Int) (req : Request)
    (db : DB) (plan : Plan) (r : PayResult)
    (hd : gatewayDispatch gw req.paymentMethod req.phoneNumber req.amount db.nextId now
      = some (.returned r))
    (hs : r.success = true)
    (hp : findPlan db.plans req.planId = some plan) :
    (processPayment gw (some u) now req db).2.subscriptions
      = db.subscriptions ++ [newSubscription u req.planId plan now (db.nextId + 1)] ∧
    (newSubscription u req.planId plan now (db.nextId + 1)).starts_at = now ∧
    (newSubscription u req.planId plan now (db.nextId + 1)).expires_at
      = (newSubscription u req.planId plan now (db.nextId + 1)).starts_at
        + (plan.duration_hours : Int) * (60 * 60 * 1000) ∧
    ∀ ops : List Op,
      ∃ s' ∈ (applyOps (processPayment gw (some u) now req db).2 ops).subscriptions,
        s'.id = db.nextId + 1 ∧ s'.plan_id = req.planId ∧ s'.starts_at = now ∧
        s'.expires_at = now + (plan.duration_hours : Int) * (60 * 60 * 1000) := by
  have hrfl : processPayment gw (some u) now req db
      = finishPayment u req now db.nextId
          (gatewayDispatch gw req.paymentMethod req.phoneNumber req.amount db.nextId now)
          { db with payments := db.payments ++ [newPayment u req db.nextId]
                    nextId := db.nextId + 1 } := rfl
  have hsub : (processPayment gw (some u) now req db).2.subscriptions
      = db.subscriptions ++ [newSubscription u req.planId plan now (db.nextId + 1)] := by
    rw [hrfl, hd, finishPayment_success_plan u req now db.nextId r
      { db with payments := db.payments ++ [newPayment u req db.nextId]
                nextId := db.nextId + 1 }
      plan hs hp]
  refine ⟨hsub, rfl, rfl, ?_⟩
  intro ops
  have hmem : newSubscription u req.planId plan now (db.nextId + 1)
      ∈ (processPayment gw (some u) now req db).2.subscriptions := by
    rw [hsub]; exact List.mem_append_right _ (List.mem_singleton.mpr rfl)
  rcases applyOps_preserves_window ops _ _ hmem with ⟨s', hs', h1, h2, h3, h4⟩
  exact ⟨s', hs', h1, h2, h3, h4⟩

/-- Witness for `C7_expires_at` at a concrete purchase followed by a
disconnect of an unrelated row and a catalog wipe. -/
theorem C7_expires_at_witness :
    (processPayment (demoGateway 0) (some "d1") 0 reqOK db0).2.subscriptions
      = db0.subscriptions ++ [newSubscription "d1" reqOK.planId plan1 0 (db0.nextId + 1)] ∧
    ∃ s' ∈ (applyOps (processPayment (demoGateway 0) (some "d1") 0 reqOK db0).2
        [Op.disconnect 7, Op.setPlans []]).subscriptions,
      s'.id = db0.nextId + 1 ∧ s'.plan_id = reqOK.planId ∧ s'.starts_at = 0 ∧
      s'.expires_at = 0 + ((plan1.duration_hours : Int) * (60 * 60 * 1000)) :=
  have h := C7_expires_at (demoGateway 0) "d1" 0 reqOK db0 plan1
    { success := true, reference := "demo_" ++ toString (0 : Int) }
    (by decide) rfl (by decide)
  ⟨h.1, h.2.2.2 [Op.disconnect 7, Op.setPlans []]⟩

/-! ### Claim C8 -/

/-- The record returned by the portal's `getTimeRemaining`
(`{ hours, minutes, total }`). -/
structure PortalTimeRemaining where
  hours : Int
  minutes : Int
  total : Int
deriving Repr, DecidableEq

/-- `getTimeRemaining` from `WifiPortal.tsx`: the raw signed difference, with
`Math.floor` (floor division, `Int.fdiv`) and the JavaScript `%` operator
(truncated remainder, `Int.tmod`).  No clamping to zero anywhere. -/
def portal_getTimeRemaining (expiresAt now : Int) : PortalTimeRemaining :=
  let remaining := expiresAt - now
  { hours := Int.fdiv remaining (1000 * 60 * 60)
    minutes := Int.fdiv (Int.tmod remaining (1000 * 60 * 60)) (1000 * 60)
    total := remaining }

/-- `getTimeRemaining` from `UserManagement.tsx`: returns the string
`Expired` when the difference is non-positive, otherwise renders whole hours
and minutes of the positive difference. -/
def admin_getTimeRemaining (expiresAt now : Int) : String :=
  let diff := expiresAt - now
  if diff ≤ 0 then "Expired"
  else
    let hours := Int.fdiv diff (1000 * 60 * 60)
    let minutes := Int.fdiv (Int.tmod diff (1000 * 60 * 60)) (1000 * 60)
    toString hours ++ "h " ++ toString minutes ++ "m"

/-- Claim C8 is false on the code: the portal's `getTimeRemaining` does not
clamp at zero.  One hour past expiry it reports `total = -3600000` and
`hours = -1`, not `max(0, expires-at - now) = 0`. -/
theorem C8_counterexample :
    (portal_getTimeRemaining 0 3600000).total = -3600000 ∧
    (portal_getTimeRemaining 0 3600000).hours = -1 ∧
    ¬ ((portal_getTimeRemaining 0 3600000).total = max 0 ((0 : Int) - 3600000)) ∧
    ¬ (0 ≤ (portal_getTimeRemaining 0 3600000).hours) := by
  decide

/-- Claim C8 amended: the portal's `getTimeRemaining` returns the raw signed
difference (negative after expiry), while the admin table's
`getTimeRemaining` is the clamped one: `Expired` when the difference is
non-positive, otherwise the whole hours and minutes of
`max(0, expires-at - now)` (which there equals the difference), both
non-negative. -/
theorem C8_amended (expiresAt now : Int) :
    (portal_getTimeRemaining expiresAt now).total = expiresAt - now ∧
    (expiresAt - now ≤ 0 → admin_getTimeRemaining expiresAt now = "Expired") ∧
    (0 < expiresAt - now →
      admin_getTimeRemaining expiresAt now
        = toString (Int.fdiv (max 0 (expiresAt - now)) (1000 * 60 * 60)) ++ "h "
          ++ toString (Int.fdiv (Int.tmod (max 0 (expiresAt - now)) (1000 * 60 * 60))
              (1000 * 60)) ++ "m" ∧
      0 ≤ Int.fdiv (expiresAt - now) (1000 * 60 * 60) ∧
      0 ≤ Int.fdiv (Int.tmod (expiresAt - now) (1000 * 60 * 60)) (1000 * 60)) := by
  refine ⟨rfl, ?_, ?_⟩
  · intro h
    simp [admin_getTimeRemaining, h]
  · intro h
    have hmax : max 0 (expiresAt - now) = expiresAt - now := max_eq_right h.le
    have hnot : ¬ (expiresAt - now ≤ 0) := not_le.mpr h
    refine ⟨?_, ?_, ?_⟩
    · rw [hmax]
      simp [admin_getTimeRemaining, hnot]
    · exact Int.fdiv_nonneg h.le (by norm_num)
    · exact Int.fdiv_nonneg (Int.tmod_nonneg _ h.le) (by norm_num)

/-- Witness for `C8_amended`: 90 minutes before expiry the admin view shows
`1h 30m`; also the portal raw total at that instant. -/
theorem C8_amended_witness :
    (portal_getTimeRemaining 5400000 0).total = 5400000 - 0 ∧
    ((5400000 : Int) - 0 ≤ 0 → admin_getTimeRemaining 5400000 0 = "Expired") ∧
    ((0 : Int) < 5400000 - 0 →
      admin_getTimeRemaining 5400000 0
        = toString (Int.fdiv (max 0 ((5400000 : Int) - 0)) (1000 * 60 * 60)) ++ "h "
          ++ toString (Int.fdiv (Int.tmod (max 0 ((5400000 : Int) - 0)) (1000 * 60 * 60))
              (1000 * 60)) ++ "m" ∧
      0 ≤ Int.fdiv ((5400000 : Int) - 0) (1000 * 60 * 60) ∧
      0 ≤ Int.fdiv (Int.tmod ((5400000 : Int) - 0) (1000 * 60 * 60)) (1000 * 60)) :=
  C8_amended 5400000 0

/-! ### Claim C9 -/

/-- A subscription row whose status column holds `expired`, as the Sweeper of
the spec would leave it. -/
def expiredSub : Subscription :=
  { id := 0, user_id := "d1", plan_id := "p1", status := "expired"
    starts_at := 0, expires_at := 86400000 }

/-- Claim C9 is false on the code: `disconnectDevice` is an unconditional
status overwrite, so applied to an already non-active (`expired`) row it is
not a no-op — the row's status changes to `cancelled`, so `expired` is not
terminal under it. -/
theorem C9_counterexample :
    (disconnectDevice 0 [expiredSub]).map Subscription.status = ["cancelled"] ∧
    expiredSub.status = "expired" ∧
    ¬ ((disconnectDevice 0 [expiredSub]).map Subscription.status
        = [expiredSub].map Subscription.status) := by
  decide

/-- Claim C9 amended: `disconnectDevice` unconditionally sets the matched
row's status to `cancelled`, whatever it was before (so `active → cancelled`
holds, repeated application equals a single application, and a `cancelled`
row stays `cancelled` — but `expired`/`pending` rows are overwritten too);
all other columns and all other rows are untouched, and the operation's only
effect is this status update (no actuator revoke call exists in the code). -/
theorem C9_amended (sid : Nat) (subs : List Subscription) :
    disconnectDevice sid (disconnectDevice sid subs) = disconnectDevice sid subs ∧
    (disconnectDevice sid subs).map (fun s => (s.id, s.status))
      = subs.map (fun s => (s.id, if s.id = sid then "cancelled" else s.status)) ∧
    (disconnectDevice sid subs).map
        (fun s => (s.id, s.user_id, s.plan_id, s.starts_at, s.expires_at))
      = subs.map (fun s => (s.id, s.user_id, s.plan_id, s.starts_at, s.expires_at)) := by
  refine ⟨?_, ?_, ?_⟩
  · induction subs with
    | nil => rfl
    | cons s t ih =>
      by_cases h : s.id = sid <;>
        simp [disconnectDevice, h] at ih ⊢ <;> exact ih
  · induction subs with
    | nil => rfl
    | cons s t ih =>
      by_cases h : s.id = sid <;>
        simp [disconnectDevice, h] at ih ⊢ <;> exact ih
  · induction subs with
    | nil => rfl
    | cons s t ih =>
      by_cases h : s.id = sid <;>
        simp [disconnectDevice, h] at ih ⊢ <;> exact ih

/-! ### Claim C10 -/

/-- After completing the freshly appended payment row, the last status in
the table is `completed`. -/
theorem markCompleted_newPayment_status_getLast (l : List Payment) (u : String)
    (req : Request) (pid : Nat) (ref : String) :
    ((markCompleted (l ++ [newPayment u req pid]) pid ref).map Payment.status).getLast?
      = some "completed" := by
  simp [markCompleted, newPayment, List.getLast?_concat]

/-- Any call whose gateway dispatch returned a successful result: the
response is success, the appended payment row is completed with the
gateway's reference, and if the plan resolves the new active subscription is
appended. -/
theorem processPayment_success_outcome (gw : Gateway) (u : String) (now : Int)
    (req : Request) (db : DB) (r : PayResult)
    (hd : gatewayDispatch gw req.paymentMethod req.phoneNumber req.amount db.nextId now
      = some (.returned r))
    (hs : r.success = true) :
    (processPayment gw (some u) now req db).1 = Response.ok db.nextId ∧
    (processPayment gw (some u) now req db).2.payments
      = markCompleted (db.payments ++ [newPayment u req db.nextId]) db.nextId r.reference ∧
    ∀ plan, findPlan db.plans req.planId = some plan →
      (processPayment gw (some u) now req db).2.subscriptions
        = db.subscriptions ++ [newSubscription u req.planId plan now (db.nextId + 1)] := by
  have hrfl : processPayment gw (some u) now req db
      = finishPayment u req now db.nextId
          (gatewayDispatch gw req.paymentMethod req.phoneNumber req.amount db.nextId now)
          { db with payments := db.payments ++ [newPayment u req db.nextId]
                    nextId := db.nextId + 1 } := rfl
  rcases hp : findPlan db.plans req.planId with _ | plan
  · rw [hrfl, hd, finishPayment_success_noplan u req now db.nextId r
      { db with payments := db.payments ++ [newPayment u req db.nextId]
                nextId := db.nextId + 1 }
      hs hp]
    refine ⟨rfl, rfl, fun plan2 hplan => ?_⟩
    cases hplan
  · rw [hrfl, hd, finishPayment_success_plan u req now db.nextId r
      { db with payments := db.payments ++ [newPayment u req db.nextId]
                nextId := db.nextId + 1 }
      plan hs hp]
    refine ⟨rfl, rfl, fun plan2 hplan => ?_⟩
    cases hplan
    rfl

/-- Claim C10: with the gateway actually wired into the repository (the demo
stubs), every supported method succeeds unconditionally for any phone number
and amount: the response is success, the payment row ends `completed` (the
`failed` branch is unreachable), and whenever the plan resolves the call
appends an `active` entitlement. -/
theorem C10_supported_methods_succeed (u : String) (now : Int) (req : Request)
    (db : DB)
    (hm : req.paymentMethod ∈ (["mtn", "airtel", "visa", "wallet"] : List String)) :
    (processPayment (demoGateway now) (some u) now req db).1 = Response.ok db.nextId ∧
    (∃ ref : String,
      (processPayment (demoGateway now) (some u) now req db).2.payments
        = markCompleted (db.payments ++ [newPayment u req db.nextId]) db.nextId ref) ∧
    ((processPayment (demoGateway now) (some u) now req db).2.payments.map
        Payment.status).getLast? = some "completed" ∧
    ∀ plan, findPlan db.plans req.planId = some plan →
      (processPayment (demoGateway now) (some u) now req db).2.subscriptions
        = db.subscriptions ++ [newSubscription u req.planId plan now (db.nextId + 1)] ∧
      (newSubscription u req.planId plan now (db.nextId + 1)).status = "active" := by
  simp only [List.mem_cons, List.mem_singleton, List.not_mem_nil, or_false] at hm
  rcases hm with hm | hm | hm | hm
  · obtain ⟨h1, h2, h3⟩ := processPayment_success_outcome (demoGateway now) u now req db
      (processMTNPayment req.phoneNumber req.amount db.nextId now)
      (by simp [gatewayDispatch, hm, demoGateway]) rfl
    exact ⟨h1, ⟨_, h2⟩,
      by rw [h2]; exact markCompleted_newPayment_status_getLast db.payments u req db.nextId _,
      fun plan hplan => ⟨h3 plan hplan, rfl⟩⟩
  · obtain ⟨h1, h2, h3⟩ := processPayment_success_outcome (demoGateway now) u now req db
      (processAirtelPayment req.phoneNumber req.amount db.nextId now)
      (by simp [gatewayDispatch, hm, demoGateway]) rfl
    exact ⟨h1, ⟨_, h2⟩,
      by rw [h2]; exact markCompleted_newPayment_status_getLast db.payments u req db.nextId _,
      fun plan hplan => ⟨h3 plan hplan, rfl⟩⟩
  · obtain ⟨h1, h2, h3⟩ := processPayment_success_outcome (demoGateway now) u now req db
      { success := true, reference := "demo_" ++ toString now }
      (by simp [gatewayDispatch, hm]) rfl
    exact ⟨h1, ⟨_, h2⟩,
      by rw [h2]; exact markCompleted_newPayment_status_getLast db.payments u req db.nextId _,
      fun plan hplan => ⟨h3 plan hplan, rfl⟩⟩
  · obtain ⟨h1, h2, h3⟩ := processPayment_success_outcome (demoGateway now) u now req db
      { success := true, reference := "demo_" ++ toString now }
      (by simp [gatewayDispatch, hm]) rfl
    exact ⟨h1, ⟨_, h2⟩,
      by rw [h2]; exact markCompleted_newPayment_status_getLast db.payments u req db.nextId _,
      fun plan hplan => ⟨h3 plan hplan, rfl⟩⟩

/-- An Airtel request against the seeded plan, used as the C10 witness
input. -/
def reqAirtel : Request :=
  { paymentMethod := "airtel", planId := "p1", phoneNumber := "0750000000", amount := 1000 }

/-- Witness for `C10_supported_methods_succeed` at a concrete Airtel
purchase. -/
theorem C10_supported_methods_succeed_witness :
    (processPayment (demoGateway 0) (some "d1") 0 reqAirtel db0).1 = Response.ok db0.nextId ∧
    (∃ ref : String,
      (processPayment (demoGateway 0) (some "d1") 0 reqAirtel db0).2.payments
        = markCompleted (db0.payments ++ [newPayment "d1" reqAirtel db0.nextId])
            db0.nextId ref) ∧
    ((processPayment (demoGateway 0) (some "d1") 0 reqAirtel db0).2.payments.map
        Payment.status).getLast? = some "completed" ∧
    (processPayment (demoGateway 0) (some "d1") 0 reqAirtel db0).2.subscriptions
      = db0.subscriptions ++ [newSubscription "d1" reqAirtel.planId plan1 0 (db0.nextId + 1)] :=
  have h := C10_supported_methods_succeed "d1" 0 reqAirtel db0 (by decide)
  ⟨h.1, h.2.1, h.2.2.1, (h.2.2.2 plan1 (by decide)).1⟩
